import Mathlib

/-!
Verification of the transaction synchronization and confirmation layer of a
multisig-wallet client (`TransactionsContext.tsx`, `OwnerModal.tsx`).

The stateful React code is embedded as explicit state passing: the provider's
local state (`transactions`, the SWR-cached `transactionCount`) becomes an
`EngineState`, and each effect/callback becomes a step of a small event-driven
state machine.  The asynchronous gateway calls (promises that may reject)
become `Except`-valued computations over an explicit `ChainEnv`: `Except.error`
models a rejected promise / thrown exception, `Except.ok` a resolved value.
-/

namespace Multisig

/-- Execution status of a multisig transaction
(`status?: 'executed' | 'failed' | 'pending'`). -/
inductive TxStatus where
  | executed
  | failed
  | pending
deriving DecidableEq, Repr

/-- The `Transaction` record of `TransactionsContext.tsx`:
`{ id: number; address: string; data?: string; confirmations?: string[];
status?: ... }`.  Optional fields are `Option`s; an absent field is `none`. -/
structure Transaction where
  id : Nat
  address : String
  data : Option String := none
  confirmations : Option (List String) := none
  status : Option TxStatus := none
deriving DecidableEq, Repr

/-- Function `updateTransactions` from `TransactionsContext.tsx`:
`txs.map((transaction) => (tx.id === transaction.id ? tx : transaction))`. -/
def updateTransactions (tx : Transaction) (txs : List Transaction) : List Transaction :=
  txs.map (fun transaction => if tx.id = transaction.id then tx else transaction)

/-- The empty-list branch of the `transactionCount` effect:
`new Array(parseInt(transactionCount.toString())).fill(null).map((_, id) => ({ id, address }))`. -/
def materializeFromCount (count : Nat) (address : String) : List Transaction :=
  (List.range count).map (fun id => { id := id, address := address })

/-- The non-empty branch of the `transactionCount` effect:
`setTransactions((txs) => [{ id: txs.length, address }, ...txs])`. -/
def prependPlaceholder (address : String) (txs : List Transaction) : List Transaction :=
  { id := txs.length, address := address } :: txs

/-- The provider's local state: the `transactions` `useState` value together
with the SWR-cached `transactionCount` (`none` models `undefined`/cleared). -/
structure EngineState where
  transactions : List Transaction
  transactionCount : Option Nat
deriving DecidableEq, Repr

/-- Initial state: `useState<Transaction[]>([])`, no count fetched yet. -/
def initialState : EngineState := { transactions := [], transactionCount := none }

/-- The events that drive the provider's effects. -/
inductive Event where
  /-- The `[chainId]` effect fired: `mutate(undefined, true)` clears the cached
  count and forces a revalidation. -/
  | chainIdChange
  /-- A `Submission` contract event arrived: the listener also runs
  `mutate(undefined, true)`. -/
  | submissionEvent
  /-- The SWR fetch resolved an authoritative count `n`; the
  `[transactionCount]` effect then runs with a defined count. -/
  | countResolved (n : Nat)
  /-- A caller invoked `updateTransactions tx`. -/
  | updateTx (tx : Transaction)
deriving DecidableEq, Repr

/-- One step of the provider, translated effect by effect.  Note that
`mutate(undefined, true)` only clears the cached count: the
`[transactionCount]` effect early-returns on `undefined`
(`if (typeof transactionCount === 'undefined') return;`), so the local
`transactions` list is never reset. -/
def stepEvent (address : String) (ev : Event) (s : EngineState) : EngineState :=
  match ev with
  | Event.chainIdChange => { s with transactionCount := none }
  | Event.submissionEvent => { s with transactionCount := none }
  | Event.countResolved n =>
      { transactions :=
          if s.transactions.length ≠ 0 then prependPlaceholder address s.transactions
          else materializeFromCount n address
        transactionCount := some n }
  | Event.updateTx tx => { s with transactions := updateTransactions tx s.transactions }

/-- Folding a sequence of events from a state. -/
def runEvents (address : String) (evs : List Event) (s : EngineState) : EngineState :=
  evs.foldl (fun st ev => stepEvent address ev st) s

/-- Flag `isLoading` from `TransactionsContext.tsx`:
`!web3Error && !fetchError && (!canFetch || (shouldFetch && isValidating))`,
with each error object modelled by its truthiness. -/
def isLoading (web3Error fetchError canFetch shouldFetch isValidating : Bool) : Bool :=
  !web3Error && !fetchError && (!canFetch || (shouldFetch && isValidating))

/-! ## The Chain Binding and the Transaction Action Gateway

The ethers contract calls are modelled by a `ChainEnv` giving the outcome of
each write call and of `tx.wait()`.  A pending transaction handle is a `Nat`;
a receipt is a record.  A promise that rejects (or a thrown exception) is
`Except.error`; the gateway functions are direct translations of `addNewTx`,
`confirmTx` and `revokeConfirmation`, which contain no `try`/`catch`, so every
`await` is a plain monadic bind that propagates the error. -/

/-- A transaction receipt, opaque but distinguishable. -/
structure Receipt where
  blockNumber : Nat
deriving DecidableEq, Repr

/-- ABI-encoded call data: `encodeFunctionData(method, orderedArgs)`.  A slot
holds `none` when the argument map had no entry for the parameter's name
(JavaScript `undefined`); the whole argument list is `none` when the ABI entry
had no `inputs` field and `undefined` was passed for the values. -/
inductive CallData where
  | call (method : String) (args : Option (List (Option String)))
deriving DecidableEq, Repr

/-- Outcomes of the contract write calls and of awaiting a receipt, for the
currently connected signer.  `Except.error` = rejected promise. -/
structure ChainEnv where
  submitTransaction : String → Nat → CallData → Except String Nat
  confirmTransaction : Nat → Except String Nat
  revokeConfirmation : Nat → Except String Nat
  wait : Nat → Except String Receipt

/-- One ABI parameter (`{ name, type }` of an `inputs` entry). -/
structure AbiParam where
  name : String
deriving DecidableEq, Repr

/-- One ABI entry: `{ type, name, inputs? }`. -/
structure AbiEntry where
  type : String
  name : String
  inputs : Option (List AbiParam)
deriving DecidableEq, Repr

/-- The ABI introspection inside `addNewTx`:
`JSON.parse(abi).filter((entry) => entry.type === 'function').find((entry) => entry.name === method).inputs`.
The outer `none` models the `TypeError` thrown when `.find` returns
`undefined` (method not found) and `.inputs` is read off it. -/
def findInputs (abi : List AbiEntry) (method : String) : Option (Option (List AbiParam)) :=
  ((abi.filter (fun entry => entry.type = "function")).find?
    (fun entry => entry.name = method)).map (fun entry => entry.inputs)

/-- The argument list passed to `encodeFunctionData`:
`inputs ? inputs.map((input) => args[input.name]) : undefined`, where `args`
is the caller's argument map (`args[input.name]` is `none` = `undefined` when
the key is missing). -/
def orderArgs (inputs : Option (List AbiParam)) (args : String → Option String) :
    Option (List (Option String)) :=
  inputs.map (fun ps => ps.map (fun input => args input.name))

/-- The encoding pipeline of `addNewTx`: resolve the method's `inputs` from
the parsed ABI (the read of `.inputs` off `undefined` throws a `TypeError`
when the method is not found — `Except.error`), then build
`encodeFunctionData(method, inputs ? inputs.map(...) : undefined)`. -/
def encodedCall (abi : List AbiEntry) (method : String) (args : String → Option String) :
    Except String CallData :=
  match findInputs abi method with
  | none => Except.error "TypeError: cannot read inputs of undefined"
  | some inputs => Except.ok (CallData.call method (orderArgs inputs args))

/-- Function `addNewTx` from `TransactionsContext.tsx`.  Resolves the method's `inputs`
from the parsed ABI (throwing — `Except.error` — if the method is not found),
orders the arguments by declared parameter order, submits the encoded call via
`submitTransaction(destination, 0, data)` and awaits the receipt.  No
`try`/`catch`: every failure propagates to the caller. -/
def addNewTx (env : ChainEnv) (destination : String) (abi : List AbiEntry)
    (method : String) (args : String → Option String) : Except String Receipt := do
  let data ← encodedCall abi method args
  let tx ← env.submitTransaction destination 0 data
  let receipt ← env.wait tx
  return receipt

/-- Function `confirmTx` from `TransactionsContext.tsx`: submit the confirmation call,
await the receipt; no `try`/`catch`. -/
def confirmTx (env : ChainEnv) (transactionId : Nat) : Except String Receipt := do
  let tx ← env.confirmTransaction transactionId
  let receipt ← env.wait tx
  return receipt

/-- Function `revokeConfirmation` from `TransactionsContext.tsx`: submit the revocation
call, await the receipt; no `try`/`catch`. -/
def revokeConfirmationTx (env : ChainEnv) (transactionId : Nat) : Except String Receipt := do
  let tx ← env.revokeConfirmation transactionId
  let receipt ← env.wait tx
  return receipt

/-! ## Owner mutation workflow (`OwnerModal.tsx`) -/

/-- Function `addOwner` from `OwnerModal.tsx`: submit
`submitTransaction(contract.address, 0, encodeFunctionData('addOwner', [owner]))`
and await the receipt. -/
def addOwnerCall (env : ChainEnv) (contractAddress : String) (owner : String) :
    Except String Receipt := do
  let tx ← env.submitTransaction contractAddress 0
    (CallData.call "addOwner" (some [some owner]))
  let receipt ← env.wait tx
  return receipt

/-- The result `sendTx` hands back to the form: either a receipt or the
`{ [FORM_ERROR]: e.message }` object. -/
inductive FormResult where
  | receipt (r : Receipt)
  | formError (message : String)
deriving DecidableEq, Repr

/-- Function `sendTx` from `OwnerModal.tsx` in `add` mode: the awaited call sits inside
`try { ... } catch (e) { return { [FORM_ERROR]: e.message } }`, so the caught
rejection becomes an ordinary return value and `sendTx` itself never rejects. -/
def sendTxAddOwner (env : ChainEnv) (contractAddress : String) (owner : String) : FormResult :=
  match addOwnerCall env contractAddress owner with
  | Except.ok receipt => FormResult.receipt receipt
  | Except.error e => FormResult.formError e

/-- The `Form` `validate` function of `OwnerModal.tsx`, a pure function of the
candidate address and the current owner set; `isAddr` stands for ethers'
`isAddress` syntactic check.  Returns the error attached to
`newOwnerAddress`, or `none` when the field validates. -/
def validateNewOwner (isAddr : String → Bool) (owners : List String)
    (newOwnerAddress : String) : Option String :=
  if newOwnerAddress.length ≠ 0 ∧ ¬ isAddr newOwnerAddress then
    some "Please enter a valid address"
  else if newOwnerAddress.length ≠ 0 ∧
      owners.any (fun owner => owner.toUpper = newOwnerAddress.toUpper) then
    some "This address is already an owner"
  else
    none

/-- Modelled from the spec: the deployed multisig contract itself is not under
`src/` (only its ABI is consumed there); per the spec, `confirmTransaction`
and `revokeConfirmation` on it revert for a transaction id outside `0..n-1`
of the existing on-chain transactions, and succeed in range.  `n` is the
on-chain transaction count. -/
def multisigChainEnv (n : Nat) : ChainEnv :=
  { submitTransaction := fun _ _ _ => Except.ok 0
    confirmTransaction := fun id =>
      if id < n then Except.ok 1 else Except.error "revert: transaction does not exist"
    revokeConfirmation := fun id =>
      if id < n then Except.ok 2 else Except.error "revert: transaction does not exist"
    wait := fun h => Except.ok { blockNumber := h } }

/-- An environment whose every write call and receipt wait fails: a rejected
signer or reverted call. -/
def failingChainEnv : ChainEnv :=
  { submitTransaction := fun _ _ _ => Except.error "submit rejected"
    confirmTransaction := fun _ => Except.error "confirm rejected"
    revokeConfirmation := fun _ => Except.error "revoke rejected"
    wait := fun _ => Except.error "wait failed" }

/-! ## Theorems -/

/-- Bulk materialization yields exactly the ids `0..n-1` in order. -/
theorem materializeFromCount_map_id (n : Nat) (address : String) :
    (materializeFromCount n address).map Transaction.id = List.range n := by
  unfold materializeFromCount
  rw [List.map_map]
  have h : ∀ x ∈ List.range n,
      (Transaction.id ∘ fun id => ({ id := id, address := address } : Transaction)) x = x :=
    fun x _ => rfl
  rw [List.map_congr_left h]
  simp

/-- C1: on a resolved count `n` with the local list empty, the engine
materializes exactly `n` transactions, the entry at position `i` being the
placeholder with id `i` (so ids run `0..n-1` in ascending order), carrying the
wallet address and with `data`, `confirmations` and `status` all absent. -/
theorem C1_materialize_on_empty_count (address : String) (n : Nat) (c : Option Nat)
    (i : Nat) (hi : i < n) :
    ((stepEvent address (Event.countResolved n) ⟨[], c⟩).transactions).length = n ∧
    ((stepEvent address (Event.countResolved n) ⟨[], c⟩).transactions).map Transaction.id =
      List.range n ∧
    ((stepEvent address (Event.countResolved n) ⟨[], c⟩).transactions)[i]? =
      some { id := i, address := address, data := none, confirmations := none,
             status := none } := by
  refine ⟨?_, ?_, ?_⟩
  · simp [stepEvent, materializeFromCount]
  · simpa [stepEvent] using materializeFromCount_map_id n address
  · simp [stepEvent, materializeFromCount, List.getElem?_map, List.getElem?_range, hi]

theorem C1_materialize_on_empty_count_witness :
    ((stepEvent "0xwallet" (Event.countResolved 3) ⟨[], none⟩).transactions).length = 3 ∧
    ((stepEvent "0xwallet" (Event.countResolved 3) ⟨[], none⟩).transactions).map
      Transaction.id = List.range 3 ∧
    ((stepEvent "0xwallet" (Event.countResolved 3) ⟨[], none⟩).transactions)[1]? =
      some { id := 1, address := "0xwallet", data := none, confirmations := none,
             status := none } :=
  C1_materialize_on_empty_count "0xwallet" 3 none 1 (by decide)

/-- C2: on a resolved count with a non-empty local list of length `L`, exactly
one placeholder is added, prepended at the front with id `L` and the wallet
address, and the tail is exactly the previous list (existing ids and ordering
unchanged) — regardless of the resolved count `n`. -/
theorem C2_prepend_on_nonempty_count (address : String) (l : List Transaction)
    (hl : l ≠ []) (n : Nat) (c : Option Nat) :
    ((stepEvent address (Event.countResolved n) ⟨l, c⟩).transactions).length = l.length + 1 ∧
    ((stepEvent address (Event.countResolved n) ⟨l, c⟩).transactions).head? =
      some { id := l.length, address := address, data := none, confirmations := none,
             status := none } ∧
    ((stepEvent address (Event.countResolved n) ⟨l, c⟩).transactions).tail = l := by
  have hlen : l.length ≠ 0 := by simpa [List.length_eq_zero] using hl
  refine ⟨?_, ?_, ?_⟩ <;> simp [stepEvent, prependPlaceholder, hlen]

theorem C2_prepend_on_nonempty_count_witness :
    ((stepEvent "0xwallet" (Event.countResolved 7)
        ⟨[{ id := 0, address := "0xwallet" }], some 1⟩).transactions).length = 1 + 1 ∧
    ((stepEvent "0xwallet" (Event.countResolved 7)
        ⟨[{ id := 0, address := "0xwallet" }], some 1⟩).transactions).head? =
      some { id := 1, address := "0xwallet", data := none, confirmations := none,
             status := none } ∧
    ((stepEvent "0xwallet" (Event.countResolved 7)
        ⟨[{ id := 0, address := "0xwallet" }], some 1⟩).transactions).tail =
      [{ id := 0, address := "0xwallet" }] := by
  have h := C2_prepend_on_nonempty_count "0xwallet" [{ id := 0, address := "0xwallet" }]
    (by decide) 7 (some 1)
  simpa using h

/-- C3: `updateTransactions tx` is a no-op when no entry carries `tx.id`;
it preserves length and positions, replaces any entry at a position holding
`tx.id` with `tx` and leaves every other position unchanged; and it is
idempotent. -/
theorem C3_updateTransactions_replace_by_id (tx : Transaction) (l : List Transaction)
    (j : Nat) (t : Transaction) (hj : l[j]? = some t) :
    ((∀ u ∈ l, u.id ≠ tx.id) → updateTransactions tx l = l) ∧
    (updateTransactions tx l).length = l.length ∧
    (updateTransactions tx l)[j]? = some (if tx.id = t.id then tx else t) ∧
    updateTransactions tx (updateTransactions tx l) = updateTransactions tx l := by
  refine ⟨?_, ?_, ?_, ?_⟩
  · intro h
    unfold updateTransactions
    conv_rhs => rw [← List.map_id l]
    apply List.map_congr_left
    intro u hu
    have hne := h u hu
    have hcond : ¬ tx.id = u.id := fun he => hne (Eq.symm he)
    rw [if_neg hcond]
    rfl
  · simp [updateTransactions]
  · simp [updateTransactions, List.getElem?_map, hj]
  · unfold updateTransactions
    rw [List.map_map]
    apply List.map_congr_left
    intro u _
    by_cases h : tx.id = u.id <;> simp [Function.comp, h]

theorem C3_updateTransactions_replace_by_id_witness :
    ((∀ u ∈ [{ id := 0, address := "0xwallet" : Transaction }],
        u.id ≠ ({ id := 0, address := "0xwallet", status := some TxStatus.executed :
          Transaction }).id) →
      updateTransactions
        { id := 0, address := "0xwallet", status := some TxStatus.executed }
        [{ id := 0, address := "0xwallet" }] = [{ id := 0, address := "0xwallet" }]) ∧
    (updateTransactions { id := 0, address := "0xwallet", status := some TxStatus.executed }
      [{ id := 0, address := "0xwallet" }]).length =
      ([{ id := 0, address := "0xwallet" : Transaction }]).length ∧
    (updateTransactions { id := 0, address := "0xwallet", status := some TxStatus.executed }
      [{ id := 0, address := "0xwallet" }])[0]? =
      some (if ({ id := 0, address := "0xwallet", status := some TxStatus.executed :
          Transaction }).id = ({ id := 0, address := "0xwallet" : Transaction }).id then
        { id := 0, address := "0xwallet", status := some TxStatus.executed }
      else { id := 0, address := "0xwallet" }) ∧
    updateTransactions { id := 0, address := "0xwallet", status := some TxStatus.executed }
      (updateTransactions
        { id := 0, address := "0xwallet", status := some TxStatus.executed }
        [{ id := 0, address := "0xwallet" }]) =
      updateTransactions
        { id := 0, address := "0xwallet", status := some TxStatus.executed }
        [{ id := 0, address := "0xwallet" }] :=
  C3_updateTransactions_replace_by_id
    { id := 0, address := "0xwallet", status := some TxStatus.executed }
    [{ id := 0, address := "0xwallet" }] 0 { id := 0, address := "0xwallet" } (by decide)

/-- C4 counterexample: the claim says a `chainId` change empties the local
list; but on a state holding one transaction, the `chainId` effect
(`mutate(undefined, true)`) leaves the local list non-empty. -/
theorem C4_chainid_counterexample :
    (stepEvent "0xwallet" Event.chainIdChange
      ⟨[{ id := 0, address := "0xwallet" }], some 1⟩).transactions ≠ [] := by
  decide

/-- C4 amended: a `chainId` change clears the cached authoritative count
(forcing a fresh Fetcher revalidation, so the engine reads as loading again)
but does not discard the locally held transactions — the local list is kept
unchanged. -/
theorem C4_chainid_keeps_list (address : String) (s : EngineState) :
    (stepEvent address Event.chainIdChange s).transactions = s.transactions ∧
    (stepEvent address Event.chainIdChange s).transactionCount = none :=
  ⟨rfl, rfl⟩

/-- C9: whenever a web3 connection error or a fetch failure is present, the
exposed `isLoading` flag is `false`, whatever the rest of the connection and
fetch state. -/
theorem C9_error_shortcircuits_loading
    (web3Error fetchError canFetch shouldFetch isValidating : Bool)
    (h : web3Error = true ∨ fetchError = true) :
    isLoading web3Error fetchError canFetch shouldFetch isValidating = false := by
  rcases h with h | h <;> simp [isLoading, h]

theorem C9_error_shortcircuits_loading_witness :
    isLoading false true true true true = false :=
  C9_error_shortcircuits_loading false true true true true (Or.inr rfl)

/-- C5 counterexample: the claim says gateway failures are caught at the
gateway boundary and returned as structured values; but in an environment
whose calls reject, each of the three gateway operations evaluates to
`Except.error` — the rejection crosses the gateway boundary unhandled. -/
theorem C5_gateway_counterexample :
    confirmTx failingChainEnv 0 = Except.error "confirm rejected" ∧
    revokeConfirmationTx failingChainEnv 0 = Except.error "revoke rejected" ∧
    addNewTx failingChainEnv "0xdest"
      [{ type := "function", name := "transfer", inputs := some [] }] "transfer"
      (fun _ => none) = Except.error "submit rejected" :=
  ⟨rfl, rfl, rfl⟩

/-- C5 amended: a failure of the underlying call is not caught inside the
gateway operation — it propagates to the caller unchanged as a rejection;
the conversion to a structured error value happens one layer up, in the
calling form (`sendTx` in `OwnerModal.tsx` catches and returns the
`FORM_ERROR` object, never rejecting). -/
theorem C5_gateway_propagates_rejections (env : ChainEnv) (transactionId : Nat)
    (e e2 : String)
    (hc : env.confirmTransaction transactionId = Except.error e)
    (hr : env.revokeConfirmation transactionId = Except.error e2) :
    confirmTx env transactionId = Except.error e ∧
    revokeConfirmationTx env transactionId = Except.error e2 ∧
    (∀ contractAddress owner e3,
      env.submitTransaction contractAddress 0
        (CallData.call "addOwner" (some [some owner])) = Except.error e3 →
      sendTxAddOwner env contractAddress owner = FormResult.formError e3) := by
  refine ⟨?_, ?_, ?_⟩
  · unfold confirmTx
    rw [hc]
    rfl
  · unfold revokeConfirmationTx
    rw [hr]
    rfl
  · intro contractAddress owner e3 hs
    unfold sendTxAddOwner addOwnerCall
    rw [hs]
    rfl

theorem C5_gateway_propagates_rejections_witness :
    confirmTx failingChainEnv 5 = Except.error "confirm rejected" ∧
    revokeConfirmationTx failingChainEnv 5 = Except.error "revoke rejected" ∧
    (∀ contractAddress owner e3,
      failingChainEnv.submitTransaction contractAddress 0
        (CallData.call "addOwner" (some [some owner])) = Except.error e3 →
      sendTxAddOwner failingChainEnv contractAddress owner = FormResult.formError e3) :=
  C5_gateway_propagates_rejections failingChainEnv 5 "confirm rejected"
    "revoke rejected" rfl rfl

/-- C6: against the (spec-modelled) multisig contract holding `n`
transactions, `confirmTx` and `revokeConfirmation` invoked with an id outside
`0..n-1` evaluate to an error — the revert of the network call propagates —
rather than silently succeeding. -/
theorem C6_out_of_range_id_fails (n transactionId : Nat) (h : n ≤ transactionId) :
    confirmTx (multisigChainEnv n) transactionId =
      Except.error "revert: transaction does not exist" ∧
    revokeConfirmationTx (multisigChainEnv n) transactionId =
      Except.error "revert: transaction does not exist" := by
  have hlt : ¬ transactionId < n := Nat.not_lt.mpr h
  have hc : (multisigChainEnv n).confirmTransaction transactionId =
      Except.error "revert: transaction does not exist" := by
    simp [multisigChainEnv, hlt]
  have hr : (multisigChainEnv n).revokeConfirmation transactionId =
      Except.error "revert: transaction does not exist" := by
    simp [multisigChainEnv, hlt]
  constructor
  · unfold confirmTx
    rw [hc]
    rfl
  · unfold revokeConfirmationTx
    rw [hr]
    rfl

theorem C6_out_of_range_id_fails_witness :
    confirmTx (multisigChainEnv 2) 5 =
      Except.error "revert: transaction does not exist" ∧
    revokeConfirmationTx (multisigChainEnv 2) 5 =
      Except.error "revert: transaction does not exist" :=
  C6_out_of_range_id_fails 2 5 (by decide)

/-- C7: when the ABI's function entry for `method` is found with declared
parameter list `ps`, the encoded call's argument list is exactly `ps` mapped
through a lookup of each parameter's name in the argument map — slot `i`
holds `args p.name` for the `i`-th declared parameter `p`, and a name missing
from the map yields `none` (JavaScript `undefined`) for that slot. -/
theorem C7_args_follow_declared_order (abi : List AbiEntry) (method : String)
    (args : String → Option String) (e : AbiEntry) (ps : List AbiParam)
    (i : Nat) (p : AbiParam)
    (he : (abi.filter (fun a => a.type = "function")).find?
      (fun a => a.name = method) = some e)
    (hp : e.inputs = some ps) (hi : ps[i]? = some p) :
    encodedCall abi method args =
      Except.ok (CallData.call method (some (ps.map (fun q => args q.name)))) ∧
    (ps.map (fun q => args q.name)).length = ps.length ∧
    (ps.map (fun q => args q.name))[i]? = some (args p.name) := by
  refine ⟨?_, by simp, ?_⟩
  · unfold encodedCall findInputs
    rw [he]
    simp [orderArgs, hp]
  · simp [List.getElem?_map, hi]

theorem C7_args_follow_declared_order_witness :
    encodedCall
      [{ type := "function", name := "transfer",
         inputs := some [{ name := "to" }, { name := "amount" }] }] "transfer"
      (fun k => if k = "to" then some "0xrecipient" else none) =
      Except.ok (CallData.call "transfer"
        (some (([{ name := "to" }, { name := "amount" }] : List AbiParam).map
          (fun q => if q.name = "to" then some "0xrecipient" else none)))) ∧
    (([{ name := "to" }, { name := "amount" }] : List AbiParam).map
      (fun q => if q.name = "to" then some "0xrecipient" else none)).length =
      ([{ name := "to" }, { name := "amount" }] : List AbiParam).length ∧
    (([{ name := "to" }, { name := "amount" }] : List AbiParam).map
      (fun q => if q.name = "to" then some "0xrecipient" else none))[1]? =
      some (if "amount" = "to" then some "0xrecipient" else none) := by
  have h := C7_args_follow_declared_order
    [{ type := "function", name := "transfer",
       inputs := some [{ name := "to" }, { name := "amount" }] }] "transfer"
    (fun k => if k = "to" then some "0xrecipient" else none)
    { type := "function", name := "transfer",
      inputs := some [{ name := "to" }, { name := "amount" }] }
    [{ name := "to" }, { name := "amount" }] 1 { name := "amount" }
    (by decide) (by decide) (by decide)
  simpa using h

/-- C8: the owner-add validation, a pure function of the candidate address
and the current owner set, rejects (returns an error for) a syntactically
invalid non-empty address, and rejects a candidate equal under
case-insensitive comparison to any existing owner; no network call is
involved, the function being total on its two inputs. -/
theorem C8_owner_validation_rejects (isAddr : String → Bool) (owners : List String)
    (candidate : String) (hne : candidate.length ≠ 0) :
    (isAddr candidate = false →
      validateNewOwner isAddr owners candidate = some "Please enter a valid address") ∧
    ((∃ o ∈ owners, o.toUpper = candidate.toUpper) →
      (validateNewOwner isAddr owners candidate).isSome = true) := by
  constructor
  · intro hf
    unfold validateNewOwner
    rw [if_pos ⟨hne, by simp [hf]⟩]
  · rintro ⟨o, ho, heq⟩
    unfold validateNewOwner
    by_cases ha : isAddr candidate = true
    · rw [if_neg (fun hcon => hcon.2 ha), if_pos]
      · rfl
      · exact ⟨hne, by rw [List.any_eq_true]; exact ⟨o, ho, by simp [heq]⟩⟩
    · rw [if_pos ⟨hne, fun hcon => ha hcon⟩]
      rfl

theorem C8_owner_validation_rejects_witness :
    (decide (("0xabcd" : String) = "0xAbCd") = false →
      validateNewOwner (fun s => decide (s = "0xAbCd")) ["0xABCD"] "0xabcd" =
        some "Please enter a valid address") ∧
    ((∃ o ∈ ["0xABCD"], o.toUpper = ("0xabcd" : String).toUpper) →
      (validateNewOwner (fun s => decide (s = "0xAbCd")) ["0xABCD"] "0xabcd").isSome =
        true) :=
  C8_owner_validation_rejects (fun s => decide (s = "0xAbCd")) ["0xABCD"] "0xabcd"
    (by decide)

/-- The id invariant: the multiset of ids in the local list is exactly
`0..length-1`. -/
def idsWellFormed (l : List Transaction) : Prop :=
  (l.map Transaction.id).Perm (List.range l.length)

/-- Updating by id never changes the list's length. -/
theorem updateTransactions_length (tx : Transaction) (l : List Transaction) :
    (updateTransactions tx l).length = l.length := by
  simp [updateTransactions]

/-- Updating by id never changes the sequence of ids. -/
theorem updateTransactions_map_id (tx : Transaction) (l : List Transaction) :
    (updateTransactions tx l).map Transaction.id = l.map Transaction.id := by
  unfold updateTransactions
  rw [List.map_map]
  apply List.map_congr_left
  intro u _
  by_cases h : tx.id = u.id <;> simp [Function.comp, h]

/-- Every event of the provider preserves the id invariant. -/
theorem stepEvent_preserves_idsWellFormed (address : String) (ev : Event)
    (s : EngineState) (h : idsWellFormed s.transactions) :
    idsWellFormed (stepEvent address ev s).transactions := by
  cases ev with
  | chainIdChange => exact h
  | submissionEvent => exact h
  | updateTx tx =>
    unfold idsWellFormed at h ⊢
    simpa [stepEvent, updateTransactions_map_id, updateTransactions_length] using h
  | countResolved n =>
    by_cases hl : s.transactions.length ≠ 0
    · unfold idsWellFormed at h ⊢
      simp only [stepEvent, if_pos hl, prependPlaceholder, List.map_cons,
        List.length_cons]
      rw [List.range_succ]
      exact (h.cons s.transactions.length).trans
        (List.perm_append_singleton _ _).symm
    · unfold idsWellFormed
      simp only [stepEvent, if_neg hl]
      rw [materializeFromCount_map_id]
      unfold materializeFromCount
      simp

/-- C10: after any sequence of provider events starting from the initial
empty state — bulk materialization from a count, optimistic prepend, `chainId`
or `Submission` revalidation, and `updateTransactions` — the ids of the local
list are a permutation of `0..length-1`: all distinct, dense from `0`, and no
prepend's locally assigned id collides with an existing entry. -/
theorem C10_ids_are_range (address : String) (evs : List Event) :
    idsWellFormed (runEvents address evs initialState).transactions := by
  have base : idsWellFormed initialState.transactions := by
    unfold idsWellFormed initialState
    simp
  suffices h : ∀ s, idsWellFormed s.transactions →
      idsWellFormed (runEvents address evs s).transactions from h _ base
  induction evs with
  | nil => intro s hs; exact hs
  | cons e rest ih =>
    intro s hs
    exact ih (stepEvent address e s) (stepEvent_preserves_idsWellFormed address e s hs)

end Multisig
